import Mathlib

/-!
Verification of the call-session orchestration and conversational-context
assembly subsystem of the sales-agent voice system.

The Python sources are shallowly embedded:

* Python strings become Lean `String` (Python slicing `s[:n]` is by code
  points, matching `List Char` take on `String.data`).
* `Optional[str]` becomes `Option String`; Python truthiness of an optional
  string (`if x:` — false for `None` and for `""`) is the `truthy` function.
* The SQLAlchemy tables become lists of records; a `query(...).filter(...)
  .first()` becomes `List.find?`, an in-place mutation of the found row
  followed by `commit` becomes `updateFirst`.
* Webhook handlers become pure functions from the parsed request, an
  oracle for the effectful collaborator calls (which may raise), and the
  storage state to the response text and the new storage state.  The
  `try/except` wrapper of each handler is the outer `match` on the body's
  outcome (`none` = an uncaught exception escaped the body).
* The TwiML built through the carrier helper library (`VoiceResponse`,
  `Connect.stream`) is modelled by the `Verb` type and its renderer,
  following the library's documented XML serialization.
-/

namespace SalesAgent

/-- Python truthiness of an optional string: `None` and `""` are falsy. -/
def truthy : Option String → Bool
  | none => false
  | some s => !(s == "")

/-! ## Data model (src/database/models.py) -/

/-- A row of the `personal_info` table (`PersonalInfoDB`): phone number is
the unique caller key; call_sid, full_name and email are nullable. -/
structure PersonalInfo where
  phone_number : String
  call_sid : Option String
  full_name : Option String
  email : Option String
deriving Repr, DecidableEq

/-- A row of the `conversations` table (`ConversationDB`): integer primary
key `id` (ascending with insertion), caller phone number, transcript, and
the nullable system message used for that call. -/
structure Conversation where
  id : Nat
  phone_number : String
  transcript : String
  system_message : Option String
deriving Repr, DecidableEq

/-! ## Persistence gateway (src/database/crud.py) -/

/-- Replace the first row whose `phone_number` matches, leaving every other
row untouched (the effect of mutating the row returned by
`query(...).first()` and committing). -/
def updateFirst (phone : String) (f : PersonalInfo → PersonalInfo) :
    List PersonalInfo → List PersonalInfo
  | [] => []
  | r :: rs =>
    if r.phone_number == phone then f r :: rs else r :: updateFirst phone f rs

/-- `crud.get_or_create_personal_info`: look up by phone number; if found,
refresh the stored call_sid when a truthy, different one is supplied and
return the stored full_name; if not found, insert a bare record and return
`none`. -/
def get_or_create_personal_info (db : List PersonalInfo) (phone_number : String)
    (call_sid : Option String) : Option String × List PersonalInfo :=
  match db.find? (fun r => r.phone_number == phone_number) with
  | some record =>
    if truthy call_sid && !(record.call_sid == call_sid) then
      (record.full_name,
       updateFirst phone_number (fun r => { r with call_sid := call_sid }) db)
    else
      (record.full_name, db)
  | none =>
    (none, db ++ [{ phone_number := phone_number, call_sid := call_sid,
                    full_name := none, email := none }])

/-- `crud.update_personal_info`: update full_name and/or email of the record
found by phone number, each only when the supplied value is truthy and
differs from the stored one; commit and return `true` iff anything changed,
`false` also when the record is missing. -/
def update_personal_info (db : List PersonalInfo) (phone_number : String)
    (name email : Option String) : Bool × List PersonalInfo :=
  match db.find? (fun r => r.phone_number == phone_number) with
  | none => (false, db)
  | some record =>
    if truthy name && !(record.full_name == name) then
      if truthy email && !(record.email == email) then
        (true, updateFirst phone_number
          (fun _ => { record with full_name := name, email := email }) db)
      else
        (true, updateFirst phone_number
          (fun _ => { record with full_name := name }) db)
    else
      if truthy email && !(record.email == email) then
        (true, updateFirst phone_number
          (fun _ => { record with email := email }) db)
      else
        (false, db)

/-- Insert a conversation into a list kept in descending-id order
(models the `ORDER BY id DESC` of the conversation query). -/
def insertByIdDesc (c : Conversation) : List Conversation → List Conversation
  | [] => [c]
  | d :: ds => if d.id ≤ c.id then c :: d :: ds else d :: insertByIdDesc c ds

/-- Sort conversations by descending id (newest first). -/
def sortByIdDesc : List Conversation → List Conversation
  | [] => []
  | c :: cs => insertByIdDesc c (sortByIdDesc cs)

/-- `crud.get_past_conversations`: the most recent `limit` conversations of
the given phone number, newest first (`ORDER BY id DESC LIMIT limit`),
projected to `(transcript, system_message)` pairs. -/
def get_past_conversations (db : List Conversation) (phone_number : String)
    (limit : Nat) : List (String × Option String) :=
  (((sortByIdDesc (db.filter (fun c => c.phone_number == phone_number))).take
      limit).map (fun c => (c.transcript, c.system_message)))

/-! ## Context assembler (src/ai/prompts.py) -/

/-- The fixed persona preamble `BASE_INSTRUCTIONS` (triple-quoted in the
source, hence the leading and trailing newline). -/
def BASE_INSTRUCTIONS : String :=
  "\nYou are Alex, a friendly and professional sales agent for Super Truck AI,\n" ++
  "a logistics software designed to help trucking carriers optimize their operations.\n" ++
  "Your goal is to assist callers by understanding their needs, explaining how Super Truck AI\n" ++
  "can benefit their business (load dispatching, invoicing, accounting, IFTA filing, carrier optimization),\n" ++
  "and guiding them toward solutions—never push sales aggressively. Help carriers increase profits\n" ++
  "and reduce costs by streamlining operations. Be concise and clear.\n"

/-- The fixed `RETURNING_CALLER_INSTRUCTIONS` notice. -/
def RETURNING_CALLER_INSTRUCTIONS : String :=
  "\nRemember you have spoken to this caller before. Refer to the previous conversation context below.\n" ++
  "Continue the conversation naturally, acknowledging past discussions if relevant.\n"

/-- Python slicing `s[:n]`: the first `n` code points of the string. -/
def pySlice (s : String) (n : Nat) : String := String.mk (s.data.take n)

/-- One digest entry body: `transcript[:500] + '...' if len(transcript) > 500
else transcript`. -/
def summarize (transcript : String) : String :=
  if transcript.length > 500 then pySlice transcript 500 ++ "..." else transcript

/-- The digest entries: iterate over the fetched conversations in reverse
order of retrieval (oldest first) and emit
`f"Call {len(past_conversations)-i}:\n{summary}\n\n"` for each. -/
def digestBody (past : List (String × Option String)) : String :=
  String.join ((past.reverse.enum).map (fun p =>
    "Call " ++ toString (past.length - p.1) ++ ":\n" ++ summarize p.2.1 ++ "\n\n"))

/-- The dynamic context block: header line, digest entries, footer line. -/
def dynamicContext (past : List (String × Option String)) : String :=
  "\n--- Previous Conversation Summary ---\n" ++ digestBody past ++
    "--- End of Summary ---\n"

/-- `prompts.generate_openai_instructions`: start from `BASE_INSTRUCTIONS`;
if a truthy phone number is supplied and it has past conversations, append
the returning-caller notice and the dynamic context and report
`is_returning = true`.  (The source also reads the previous system message
into a local that never influences the output — the "replace the base
instructions" option is commented out there — so it is omitted here.) -/
def generate_openai_instructions (db : List Conversation)
    (phone_number : Option String) : String × Bool :=
  match phone_number with
  | none => (BASE_INSTRUCTIONS, false)
  | some phone =>
    if phone == "" then (BASE_INSTRUCTIONS, false)
    else if (get_past_conversations db phone 3).isEmpty then
      (BASE_INSTRUCTIONS, false)
    else
      (BASE_INSTRUCTIONS ++ "\n" ++ RETURNING_CALLER_INSTRUCTIONS ++
        dynamicContext (get_past_conversations db phone 3), true)

/-! ## TwiML generation (src/telephony/twilio_service.py)

The carrier helper library (`VoiceResponse`, `Connect.stream`) is a
third-party dependency; its documented XML serialization is modelled by
`Verb` and `renderResponse`. -/

/-- A TwiML verb appearing in the responses this system builds. -/
inductive Verb where
  | say (text : String)
  | play (url : String)
  | pause (len : Nat)
  | connectStream (url : String)
  | hangup
deriving Repr, DecidableEq

/-- Serialize one verb. -/
def renderVerb : Verb → String
  | .say t => "<Say>" ++ t ++ "</Say>"
  | .play u => "<Play>" ++ u ++ "</Play>"
  | .pause n => "<Pause length=\"" ++ toString n ++ "\"/>"
  | .connectStream u => "<Connect><Stream url=\"" ++ u ++ "\"/></Connect>"
  | .hangup => "<Hangup/>"

/-- Serialize a list of verbs in order. -/
def renderVerbs : List Verb → String
  | [] => ""
  | v :: vs => renderVerb v ++ renderVerbs vs

/-- The XML declaration emitted by `str(VoiceResponse())`. -/
def xmlDeclaration : String := "<?xml version=\"1.0\" encoding=\"UTF-8\"?>"

/-- Serialize a whole `<Response>` document. -/
def renderResponse (verbs : List Verb) : String :=
  xmlDeclaration ++ "<Response>" ++ renderVerbs verbs ++ "</Response>"

/-- `settings.BASE_URL.split('//')[1]` — the host part of the base URL. -/
def hostPart (base_url : String) : String := (base_url.splitOn "//").getD 1 ""

/-- The media-stream WebSocket URL embedding the call sid and phone number. -/
def streamUrl (base_url call_sid phone_number : String) : String :=
  "wss://" ++ hostPart base_url ++ "/media-stream/" ++ call_sid ++ "/" ++
    phone_number

/-- `twilio_service.create_greeting_and_connect_stream_twiml`: play the
greeting audio (with a one-second pause) when a truthy URL is given, else
say the fallback line; then connect the call to the media-stream URL. -/
def create_greeting_and_connect_stream_twiml (greeting_audio_url : Option String)
    (call_sid phone_number base_url : String) : String :=
  if truthy greeting_audio_url then
    renderResponse [Verb.play (greeting_audio_url.getD ""), Verb.pause 1,
      Verb.connectStream (streamUrl base_url call_sid phone_number)]
  else
    renderResponse [Verb.say "Connecting your call.",
      Verb.connectStream (streamUrl base_url call_sid phone_number)]

/-- `twilio_service.create_outgoing_connect_stream_twiml`: say the outbound
opening line, then connect to the media-stream URL. -/
def create_outgoing_connect_stream_twiml (call_sid to_phone_number base_url :
    String) : String :=
  renderResponse [Verb.say "Hello! This is Alex from Super Truck AI.",
    Verb.connectStream (streamUrl base_url call_sid to_phone_number)]

/-! ## Webhook handlers (src/telephony/router.py) -/

/-- The parsed carrier form payload as produced by `parse_twilio_request`:
`call_sid` is the raw `CallSid` field; `from_number`/`to_number` are the
E.164-normalized numbers, `none` when absent or unparsable. -/
structure ParsedRequest where
  call_sid : Option String
  from_number : Option String
  to_number : Option String
  speech_result : Option String
deriving Repr, DecidableEq

/-- Oracle for the effectful collaborator calls a handler performs:
whether the identity write raises a storage failure, the result of
`greeting_service.get_greeting_url` (which may raise), the request's base
URL, and the configured `settings.BASE_URL`. -/
structure Effects where
  storage_fails : Bool
  greeting : Option String → String → Except String String
  request_base_url : String
  settings_base_url : String

/-- The two storage tables a webhook handler can touch. -/
structure Storage where
  personal : List PersonalInfo
  conversations : List Conversation
deriving Repr, DecidableEq

/-- The fixed minimal error markup of the inbound handlers. -/
def errorSayResponse : String :=
  "<Response><Say>Error processing call.</Say></Response>"

/-- The markup of the inbound handlers' `except` branch. -/
def internalErrorResponse : String :=
  "<Response><Say>An internal error occurred.</Say></Response>"

/-- The markup of the outgoing handler's missing-data and `except`
branches. -/
def hangupResponse : String := "<Response><Hangup/></Response>"

/-- `phone_number.replace("+", "")`. -/
def stripPlus (s : String) : String := s.replace "+" ""

/-- `greeting_url_path.lstrip('/')`. -/
def stripLeadingSlashes (s : String) : String :=
  String.mk (s.data.dropWhile (fun c => c == '/'))

/-- The `try` body of `handle_incoming`.  First component `none` means an
uncaught exception escaped (form parsing, storage, or greeting synthesis);
`some resp` is a normal return of response text.  The second component is
the storage state when the body finishes or the exception escapes. -/
def incomingBody (parsed : Except String ParsedRequest) (eff : Effects)
    (st : Storage) : Option String × Storage :=
  match parsed with
  | .error _ => (none, st)
  | .ok data =>
    if truthy data.call_sid && truthy data.from_number then
      if eff.storage_fails then (none, st)
      else
        match eff.greeting
            (get_or_create_personal_info st.personal (data.from_number.getD "")
              (some (data.call_sid.getD ""))).1
            (stripPlus (data.from_number.getD "")) with
        | .error _ =>
          (none, { st with personal :=
            (get_or_create_personal_info st.personal (data.from_number.getD "")
              (some (data.call_sid.getD ""))).2 })
        | .ok path =>
          (some (create_greeting_and_connect_stream_twiml
              (some (eff.request_base_url ++ stripLeadingSlashes path))
              (data.call_sid.getD "") (data.from_number.getD "")
              eff.settings_base_url),
           { st with personal :=
            (get_or_create_personal_info st.personal (data.from_number.getD "")
              (some (data.call_sid.getD ""))).2 })
    else
      (some errorSayResponse, st)

/-- `handle_incoming`: the body wrapped so any uncaught exception yields
the fixed internal-error markup. -/
def handle_incoming (parsed : Except String ParsedRequest) (eff : Effects)
    (st : Storage) : String × Storage :=
  match incomingBody parsed eff st with
  | (some resp, st2) => (resp, st2)
  | (none, st2) => (internalErrorResponse, st2)

/-- The `try` body of `handle_agent_incoming`: identical to the general
inbound body except that the dialed agent number must also be present. -/
def agentIncomingBody (parsed : Except String ParsedRequest) (eff : Effects)
    (st : Storage) : Option String × Storage :=
  match parsed with
  | .error _ => (none, st)
  | .ok data =>
    if truthy data.call_sid && truthy data.from_number &&
        truthy data.to_number then
      if eff.storage_fails then (none, st)
      else
        match eff.greeting
            (get_or_create_personal_info st.personal (data.from_number.getD "")
              (some (data.call_sid.getD ""))).1
            (stripPlus (data.from_number.getD "")) with
        | .error _ =>
          (none, { st with personal :=
            (get_or_create_personal_info st.personal (data.from_number.getD "")
              (some (data.call_sid.getD ""))).2 })
        | .ok path =>
          (some (create_greeting_and_connect_stream_twiml
              (some (eff.request_base_url ++ stripLeadingSlashes path))
              (data.call_sid.getD "") (data.from_number.getD "")
              eff.settings_base_url),
           { st with personal :=
            (get_or_create_personal_info st.personal (data.from_number.getD "")
              (some (data.call_sid.getD ""))).2 })
    else
      (some errorSayResponse, st)

/-- `handle_agent_incoming`, wrapped like `handle_incoming`. -/
def handle_agent_incoming (parsed : Except String ParsedRequest)
    (eff : Effects) (st : Storage) : String × Storage :=
  match agentIncomingBody parsed eff st with
  | (some resp, st2) => (resp, st2)
  | (none, st2) => (internalErrorResponse, st2)

/-- The `try` body of `handle_outgoing_handler`: requires `CallSid` and the
dialed number, builds the outbound TwiML; touches no storage. -/
def outgoingBody (parsed : Except String ParsedRequest) (eff : Effects)
    (st : Storage) : Option String × Storage :=
  match parsed with
  | .error _ => (none, st)
  | .ok data =>
    if truthy data.call_sid && truthy data.to_number then
      (some (create_outgoing_connect_stream_twiml (data.call_sid.getD "")
        (data.to_number.getD "") eff.settings_base_url), st)
    else
      (some hangupResponse, st)

/-- `handle_outgoing_handler`: the body wrapped so any uncaught exception
yields the hangup markup. -/
def handle_outgoing_handler (parsed : Except String ParsedRequest)
    (eff : Effects) (st : Storage) : String × Storage :=
  match outgoingBody parsed eff st with
  | (some resp, st2) => (resp, st2)
  | (none, st2) => (hangupResponse, st2)

/-! ## Session lifecycle (src/ai/router.py) -/

/-- Modelled from the spec: the realtime session handler
(`RealtimeOpenAIHandler` in `ai/openai_services.py`) is not among the
available sources; per spec §4.4 its `stop()` "releases any resources the
session holds and is safe to call multiple times" — idempotent teardown
that must not double-release.  The state records whether the session is
stopped and how many times its resources have been released. -/
structure HandlerState where
  stopped : Bool
  releases : Nat
deriving Repr, DecidableEq

/-- Modelled from the spec: idempotent `stop()` — a no-op on an already
stopped session, otherwise it releases the resources once and marks the
session stopped. -/
def HandlerState.stop (s : HandlerState) : HandlerState :=
  if s.stopped then s else { stopped := true, releases := s.releases + 1 }

/-- The handler as freshly constructed by the endpoint. -/
def initialHandler : HandlerState := { stopped := false, releases := 0 }

/-- How `await handler.start()` ends inside `media_stream_endpoint`. -/
inductive StartOutcome where
  | normal
  | disconnect
  | failure (msg : String)
deriving Repr

/-- `media_stream_endpoint`: construct a fresh handler and run `start()`
inside `try/except/finally`; the disconnect and failure `except` arms call
`stop()` and the `finally` arm always calls `stop()` again.  Returns the
final handler state and the number of `stop()` invocations performed. -/
def media_stream_endpoint (outcome : StartOutcome) : HandlerState × Nat :=
  let handler := initialHandler
  match outcome with
  | .normal => (handler.stop, 1)
  | .disconnect => (handler.stop.stop, 2)
  | .failure _ => (handler.stop.stop, 2)

/-! ## Response predicates -/

/-- Well-formed call-control markup: a single `<Response>` element, with or
without the XML declaration. -/
def wellFormedMarkup (s : String) : Prop :=
  ∃ decl body, (decl = "" ∨ decl = xmlDeclaration) ∧
    s = decl ++ "<Response>" ++ body ++ "</Response>"

/-- The response makes the caller hear something: it contains a `Say` or a
`Play` instruction. -/
def hasSpokenVerb (s : String) : Prop :=
  "<Say>".data <:+: s.data ∨ "<Play>".data <:+: s.data

/-- `resolve_or_create_identity` may only refresh the call identifier of an
existing record, and only to a truthy, different supplied one; phone
number, name and email are untouched. -/
def preservesIdentity (sid : Option String) (r r' : PersonalInfo) : Prop :=
  r'.phone_number = r.phone_number ∧ r'.full_name = r.full_name ∧
  r'.email = r.email ∧
  (r'.call_sid = r.call_sid ∨
    (truthy sid = true ∧ r.call_sid ≠ sid ∧ r'.call_sid = sid))

/-- A field either keeps its stored value or moves to a supplied truthy
value differing from the stored one. -/
def fieldUpdate (supplied old new : Option String) : Prop :=
  new = old ∨ (truthy supplied = true ∧ old ≠ supplied ∧ new = supplied)

/-- Frame of `update_identity` on one record: records of other phone
numbers are untouched; phone number and call identifier never change;
name and email obey `fieldUpdate`. -/
def recordFrame (phone : String) (name email : Option String)
    (r r' : PersonalInfo) : Prop :=
  (r.phone_number ≠ phone → r' = r) ∧
  r'.phone_number = r.phone_number ∧ r'.call_sid = r.call_sid ∧
  fieldUpdate name r.full_name r'.full_name ∧
  fieldUpdate email r.email r'.email

/-! ## Helper lemmas -/

theorem forall2_updateFirst (P : PersonalInfo → PersonalInfo → Prop)
    (phone : String) (f : PersonalInfo → PersonalInfo)
    (hrefl : ∀ r, P r r) :
    ∀ (db : List PersonalInfo) (record : PersonalInfo),
      db.find? (fun r => r.phone_number == phone) = some record →
      P record (f record) →
      List.Forall₂ P db (updateFirst phone f db) := by
  intro db
  induction db with
  | nil => intro record h; simp at h
  | cons r rs ih =>
    intro record hfind hrec
    cases hr : r.phone_number == phone with
    | true =>
      simp only [List.find?_cons, hr] at hfind
      injection hfind with hrc
      subst hrc
      simp only [updateFirst, hr, if_true]
      exact List.Forall₂.cons hrec
        (List.forall₂_same.mpr (fun x _ => hrefl x))
    | false =>
      simp only [List.find?_cons, hr] at hfind
      simp only [updateFirst, hr, if_false]
      exact List.Forall₂.cons (hrefl r) (ih record hfind hrec)

theorem updateFirst_fixed (phone : String) (f : PersonalInfo → PersonalInfo) :
    ∀ (db : List PersonalInfo) (record : PersonalInfo),
      db.find? (fun r => r.phone_number == phone) = some record →
      updateFirst phone f db = db →
      f record = record := by
  intro db
  induction db with
  | nil => intro record h; simp at h
  | cons r rs ih =>
    intro record hfind heq
    cases hr : r.phone_number == phone with
    | true =>
      simp only [List.find?_cons, hr] at hfind
      injection hfind with hrc
      subst hrc
      simp only [updateFirst, hr, if_true] at heq
      exact (List.cons.injEq _ _ _ _ ▸ heq).1
    | false =>
      simp only [List.find?_cons, hr] at hfind
      simp only [updateFirst, hr, if_false] at heq
      exact ih record hfind (List.cons.injEq _ _ _ _ ▸ heq).2

theorem wellFormed_renderResponse (vs : List Verb) :
    wellFormedMarkup (renderResponse vs) :=
  ⟨xmlDeclaration, renderVerbs vs, Or.inr rfl, rfl⟩

theorem spoken_renderResponse_say (t : String) (vs : List Verb) :
    hasSpokenVerb (renderResponse (Verb.say t :: vs)) := by
  left
  refine ⟨(xmlDeclaration ++ "<Response>").data,
    (t ++ "</Say>" ++ renderVerbs vs ++ "</Response>").data, ?_⟩
  simp [renderResponse, renderVerbs, renderVerb, String.data_append,
    List.append_assoc]

theorem spoken_renderResponse_play (u : String) (vs : List Verb) :
    hasSpokenVerb (renderResponse (Verb.play u :: vs)) := by
  right
  refine ⟨(xmlDeclaration ++ "<Response>").data,
    (u ++ "</Play>" ++ renderVerbs vs ++ "</Response>").data, ?_⟩
  simp [renderResponse, renderVerbs, renderVerb, String.data_append,
    List.append_assoc]

theorem wellFormed_errorSay : wellFormedMarkup errorSayResponse :=
  ⟨"", "<Say>Error processing call.</Say>", Or.inl rfl, by decide⟩

theorem wellFormed_internalError : wellFormedMarkup internalErrorResponse :=
  ⟨"", "<Say>An internal error occurred.</Say>", Or.inl rfl, by decide⟩

theorem wellFormed_hangup : wellFormedMarkup hangupResponse :=
  ⟨"", "<Hangup/>", Or.inl rfl, by decide⟩

theorem spoken_errorSay : hasSpokenVerb errorSayResponse :=
  Or.inl (by decide)

theorem spoken_internalError : hasSpokenVerb internalErrorResponse :=
  Or.inl (by decide)

/-! ## Claim theorems -/

/-- Claim C1 (evaluation at the failing input): with two stored
conversations for one phone number — "first call" (id 1, older) and
"second call" (id 2, newer) — the digest presents the older entry first
but labels it "Call 2" and labels the newer entry "Call 1": the labels
descend from N to 1, so the oldest entry does not carry label 1 as the
claim (and the source's own inline comment "Call numbers count up
(1, 2, 3...)") states. -/
theorem digest_labels_descend :
    dynamicContext (get_past_conversations
      [⟨1, "+15551234567", "first call", none⟩,
       ⟨2, "+15551234567", "second call", none⟩] "+15551234567" 3) =
    "\n--- Previous Conversation Summary ---\n" ++
      "Call 2:\nfirst call\n\n" ++ "Call 1:\nsecond call\n\n" ++
      "--- End of Summary ---\n" := by
  decide

/-- Claim C6: a transcript of at most 500 characters is reproduced
verbatim in its digest entry; a longer transcript yields exactly its
first 500 characters followed by the ellipsis marker. -/
theorem transcript_truncation (t : String) :
    (t.length ≤ 500 → summarize t = t) ∧
    (500 < t.length →
      summarize t = pySlice t 500 ++ "..." ∧ (pySlice t 500).length = 500) := by
  constructor
  · intro h
    unfold summarize
    rw [if_neg (by omega)]
  · intro h
    refine ⟨?_, ?_⟩
    · unfold summarize
      rw [if_pos (by omega)]
    · show (t.data.take 500).length = 500
      rw [List.length_take]
      have : t.length = t.data.length := rfl
      omega

/-- Claim C6 witness: a 501-character transcript is truncated to exactly
its first 500 characters plus the ellipsis marker. -/
theorem transcript_truncation_witness :
    500 < (String.mk (List.replicate 501 'a')).length ∧
    (summarize (String.mk (List.replicate 501 'a')) =
      pySlice (String.mk (List.replicate 501 'a')) 500 ++ "..." ∧
     (pySlice (String.mk (List.replicate 501 'a')) 500).length = 500) := by
  have hl : (String.mk (List.replicate 501 'a')).length = 501 := by
    have hd : (String.mk (List.replicate 501 'a')).length =
        (List.replicate 501 'a').length := rfl
    rw [hd, List.length_replicate]
  exact ⟨by omega, (transcript_truncation (String.mk (List.replicate 501 'a'))).2
    (by omega)⟩

/-- Claim C7: for every input (any phone number or none, any stored
history) the fixed persona preamble `BASE_INSTRUCTIONS` is a byte-for-byte
prefix of the instruction text returned by
`generate_openai_instructions`. -/
theorem base_instructions_always_prefix (db : List Conversation)
    (phone_number : Option String) :
    ∃ rest, (generate_openai_instructions db phone_number).1 =
      BASE_INSTRUCTIONS ++ rest := by
  cases phone_number with
  | none => exact ⟨"", (String.append_empty _).symm⟩
  | some phone =>
    by_cases hp : (phone == "") = true
    · exact ⟨"", by simp [generate_openai_instructions, hp]⟩
    · by_cases hc : (get_past_conversations db phone 3).isEmpty = true
      · exact ⟨"", by simp [generate_openai_instructions, hp, hc]⟩
      · exact ⟨"\n" ++ RETURNING_CALLER_INSTRUCTIONS ++
          dynamicContext (get_past_conversations db phone 3), by
          simp [generate_openai_instructions, hp, hc, String.append_assoc]⟩

/-- Claim C5: a caller with at least one stored conversation gets
`is_returning = true`, and the output is the no-history output (the bare
preamble, as produced by the same function on an empty history) extended
by a nonempty remainder consisting of the returning-caller notice and the
digest. -/
theorem returning_caller_output_extends (db : List Conversation)
    (phone : String) (hp : phone ≠ "")
    (hc : get_past_conversations db phone 3 ≠ []) :
    (generate_openai_instructions db (some phone)).2 = true ∧
    ∃ rest, rest ≠ "" ∧
      (generate_openai_instructions db (some phone)).1 =
        (generate_openai_instructions [] (some phone)).1 ++ rest ∧
      rest = "\n" ++ RETURNING_CALLER_INSTRUCTIONS ++
        dynamicContext (get_past_conversations db phone 3) := by
  have hp' : (phone == "") = false := by
    simp [hp]
  have hc' : (get_past_conversations db phone 3).isEmpty = false := by
    simp [List.isEmpty_iff, hc]
  have hnil : get_past_conversations [] phone 3 = [] := rfl
  have hbase : (generate_openai_instructions [] (some phone)).1 =
      BASE_INSTRUCTIONS := by
    simp [generate_openai_instructions, hp', hnil]
  have hout : generate_openai_instructions db (some phone) =
      (BASE_INSTRUCTIONS ++ "\n" ++ RETURNING_CALLER_INSTRUCTIONS ++
        dynamicContext (get_past_conversations db phone 3), true) := by
    simp [generate_openai_instructions, hp', hc', String.append_assoc]
  refine ⟨by rw [hout], ⟨"\n" ++ RETURNING_CALLER_INSTRUCTIONS ++
    dynamicContext (get_past_conversations db phone 3), ?_, ?_, rfl⟩⟩
  · intro h
    have hl := congrArg String.length h
    rw [String.length_append, String.length_append] at hl
    have h1 : ("\n" : String).length = 1 := by decide
    have h0 : ("" : String).length = 0 := by decide
    omega
  · rw [hout, hbase]
    simp [String.append_assoc]

/-- Claim C5 witness: a caller with one stored conversation. -/
theorem returning_caller_output_extends_witness :
    ("+15551234567" : String) ≠ "" ∧
    get_past_conversations [⟨1, "+15551234567", "hello", none⟩]
      "+15551234567" 3 ≠ [] ∧
    ((generate_openai_instructions [⟨1, "+15551234567", "hello", none⟩]
        (some "+15551234567")).2 = true ∧
     ∃ rest, rest ≠ "" ∧
       (generate_openai_instructions [⟨1, "+15551234567", "hello", none⟩]
          (some "+15551234567")).1 =
         (generate_openai_instructions [] (some "+15551234567")).1 ++ rest ∧
       rest = "\n" ++ RETURNING_CALLER_INSTRUCTIONS ++
         dynamicContext (get_past_conversations
           [⟨1, "+15551234567", "hello", none⟩] "+15551234567" 3)) :=
  ⟨by decide, by decide,
   returning_caller_output_extends _ _ (by decide) (by decide)⟩

/-- Claim C4: for a phone number with no existing identity record,
`get_or_create_personal_info` returns an absent name, and afterwards the
table holds exactly one record with that phone number, whose name is
absent.  The function is total — absence of a prior record is a normal
result, never an error. -/
theorem new_caller_creates_bare_record (db : List PersonalInfo)
    (phone : String) (call_sid : Option String)
    (h : ∀ r ∈ db, r.phone_number ≠ phone) :
    (get_or_create_personal_info db phone call_sid).1 = none ∧
    ∃ r, ((get_or_create_personal_info db phone call_sid).2.filter
        (fun x => x.phone_number == phone)) = [r] ∧
      r.phone_number = phone ∧ r.full_name = none := by
  have hfind : db.find? (fun r => r.phone_number == phone) = none := by
    rw [List.find?_eq_none]
    intro x hx
    simp [h x hx]
  have hfilter : db.filter (fun x => x.phone_number == phone) = [] := by
    rw [List.filter_eq_nil_iff]
    intro x hx
    simp [h x hx]
  refine ⟨?_, ⟨⟨phone, call_sid, none, none⟩, ?_, rfl, rfl⟩⟩
  · simp [get_or_create_personal_info, hfind]
  · simp [get_or_create_personal_info, hfind, List.filter_append, hfilter]

/-- Claim C4 witness: a fresh phone number against a table holding one
other caller. -/
theorem new_caller_creates_bare_record_witness :
    (∀ r ∈ [(⟨"+15550000000", none, some "Bob", none⟩ : PersonalInfo)],
      r.phone_number ≠ "+15551234567") ∧
    ((get_or_create_personal_info
        [⟨"+15550000000", none, some "Bob", none⟩] "+15551234567"
        (some "CA123")).1 = none ∧
     ∃ r, ((get_or_create_personal_info
          [⟨"+15550000000", none, some "Bob", none⟩] "+15551234567"
          (some "CA123")).2.filter
        (fun x => x.phone_number == "+15551234567")) = [r] ∧
      r.phone_number = "+15551234567" ∧ r.full_name = none) :=
  ⟨by decide, new_caller_creates_bare_record _ _ _ (by decide)⟩

/-- Claim C10: on an existing identity record,
`get_or_create_personal_info` never modifies the stored name or email of
any record; the only field that may change is the stored call identifier,
and only to a supplied truthy call identifier differing from the stored
one. -/
theorem existing_record_identity_preserved (db : List PersonalInfo)
    (phone : String) (sid : Option String) (record : PersonalInfo)
    (hfind : db.find? (fun r => r.phone_number == phone) = some record) :
    List.Forall₂ (preservesIdentity sid) db
      (get_or_create_personal_info db phone sid).2 := by
  have hrefl : ∀ r, preservesIdentity sid r r :=
    fun r => ⟨rfl, rfl, rfl, Or.inl rfl⟩
  simp only [get_or_create_personal_info, hfind]
  by_cases hcond : (truthy sid && !(record.call_sid == sid)) = true
  · rw [if_pos hcond]
    have hcond' : truthy sid = true ∧ ¬ record.call_sid = sid := by
      simpa using hcond
    refine forall2_updateFirst _ phone _ hrefl db record hfind ?_
    exact ⟨rfl, rfl, rfl, Or.inr ⟨hcond'.1, hcond'.2, rfl⟩⟩
  · rw [if_neg hcond]
    exact List.forall₂_same.mpr (fun x _ => hrefl x)

/-- Claim C10 witness: an existing record with a stored name, email and an
old call identifier, refreshed with a new call identifier. -/
theorem existing_record_identity_preserved_witness :
    [(⟨"+15551234567", some "CA1", some "Bob", some "b@x.com"⟩ :
      PersonalInfo)].find? (fun r => r.phone_number == "+15551234567") =
      some (⟨"+15551234567", some "CA1", some "Bob", some "b@x.com"⟩ :
        PersonalInfo) ∧
    List.Forall₂ (preservesIdentity (some "CA2"))
      [⟨"+15551234567", some "CA1", some "Bob", some "b@x.com"⟩]
      (get_or_create_personal_info
        [⟨"+15551234567", some "CA1", some "Bob", some "b@x.com"⟩]
        "+15551234567" (some "CA2")).2 := by
  constructor
  · decide
  · exact existing_record_identity_preserved
      [⟨"+15551234567", some "CA1", some "Bob", some "b@x.com"⟩]
      "+15551234567" (some "CA2")
      ⟨"+15551234567", some "CA1", some "Bob", some "b@x.com"⟩ (by decide)

/-- Claim C3: on every exit path of the streaming session endpoint —
normal completion, transport disconnect, uncaught failure — `stop()` is
invoked at least once on the session handler; the final state is stopped
with its resources released exactly once even on the paths that call
`stop()` twice; and `stop()` is idempotent on every state. -/
theorem stop_on_every_exit_path_idempotent :
    (∀ outcome : StartOutcome,
      1 ≤ (media_stream_endpoint outcome).2 ∧
      (media_stream_endpoint outcome).1.stopped = true ∧
      (media_stream_endpoint outcome).1.releases = 1) ∧
    (∀ s : HandlerState, s.stop.stop = s.stop) := by
  constructor
  · intro outcome
    cases outcome with
    | normal => exact ⟨by decide, by decide, by decide⟩
    | disconnect => exact ⟨by decide, by decide, by decide⟩
    | failure msg => exact ⟨show (1 : Nat) ≤ 2 by decide, rfl, rfl⟩
  · intro s
    cases s with
    | mk stopped releases => cases stopped <;> simp [HandlerState.stop]

/-- Claim C8: `update_personal_info` modifies only supplied (truthy)
fields that differ from the stored values — every record keeps its phone
number and call identifier, records of other phone numbers are untouched
entirely — and it returns `false` exactly when the record is missing or
nothing changed, `true` exactly when the table actually changed. -/
theorem update_only_supplied_differing_fields (db : List PersonalInfo)
    (phone : String) (name email : Option String) :
    List.Forall₂ (recordFrame phone name email) db
      (update_personal_info db phone name email).2 ∧
    (db.find? (fun r => r.phone_number == phone) = none →
      (update_personal_info db phone name email).1 = false ∧
      (update_personal_info db phone name email).2 = db) ∧
    ((update_personal_info db phone name email).1 = true ↔
      (update_personal_info db phone name email).2 ≠ db) := by
  have hrefl : ∀ r, recordFrame phone name email r r :=
    fun r => ⟨fun _ => rfl, rfl, rfl, Or.inl rfl, Or.inl rfl⟩
  cases hfind : db.find? (fun r => r.phone_number == phone) with
  | none =>
    have hres : update_personal_info db phone name email = (false, db) := by
      simp only [update_personal_info, hfind]
    rw [hres]
    exact ⟨List.forall₂_same.mpr (fun x _ => hrefl x),
      fun _ => ⟨rfl, rfl⟩, by simp⟩
  | some record =>
    have hpn : record.phone_number = phone := by
      have hp := List.find?_some hfind
      simpa using hp
    by_cases hn : (truthy name && !(record.full_name == name)) = true
    · have hn' : truthy name = true ∧ ¬ record.full_name = name := by
        simpa using hn
      by_cases he : (truthy email && !(record.email == email)) = true
      · have he' : truthy email = true ∧ ¬ record.email = email := by
          simpa using he
        have hres : update_personal_info db phone name email =
            (true, updateFirst phone
              (fun _ => { record with full_name := name, email := email })
              db) := by
          simp only [update_personal_info, hfind]
          rw [if_pos hn, if_pos he]
        rw [hres]
        refine ⟨?_, fun h => absurd h (by simp), ?_⟩
        · exact forall2_updateFirst _ phone _ hrefl db record hfind
            ⟨fun hc => absurd hpn hc, rfl, rfl,
             Or.inr ⟨hn'.1, hn'.2, rfl⟩, Or.inr ⟨he'.1, he'.2, rfl⟩⟩
        · constructor
          · intro _ heq
            have hfx := updateFirst_fixed phone _ db record hfind heq
            exact hn'.2 (congrArg PersonalInfo.full_name hfx).symm
          · intro _
            rfl
      · have hres : update_personal_info db phone name email =
            (true, updateFirst phone
              (fun _ => { record with full_name := name }) db) := by
          simp only [update_personal_info, hfind]
          rw [if_pos hn, if_neg he]
        rw [hres]
        refine ⟨?_, fun h => absurd h (by simp), ?_⟩
        · exact forall2_updateFirst _ phone _ hrefl db record hfind
            ⟨fun hc => absurd hpn hc, rfl, rfl,
             Or.inr ⟨hn'.1, hn'.2, rfl⟩, Or.inl rfl⟩
        · constructor
          · intro _ heq
            have hfx := updateFirst_fixed phone _ db record hfind heq
            exact hn'.2 (congrArg PersonalInfo.full_name hfx).symm
          · intro _
            rfl
    · by_cases he : (truthy email && !(record.email == email)) = true
      · have he' : truthy email = true ∧ ¬ record.email = email := by
          simpa using he
        have hres : update_personal_info db phone name email =
            (true, updateFirst phone
              (fun _ => { record with email := email }) db) := by
          simp only [update_personal_info, hfind]
          rw [if_neg hn, if_pos he]
        rw [hres]
        refine ⟨?_, fun h => absurd h (by simp), ?_⟩
        · exact forall2_updateFirst _ phone _ hrefl db record hfind
            ⟨fun hc => absurd hpn hc, rfl, rfl,
             Or.inl rfl, Or.inr ⟨he'.1, he'.2, rfl⟩⟩
        · constructor
          · intro _ heq
            have hfx := updateFirst_fixed phone _ db record hfind heq
            exact he'.2 (congrArg PersonalInfo.email hfx).symm
          · intro _
            rfl
      · have hres : update_personal_info db phone name email = (false, db) := by
          simp only [update_personal_info, hfind]
          rw [if_neg hn, if_neg he]
        rw [hres]
        exact ⟨List.forall₂_same.mpr (fun x _ => hrefl x),
          fun _ => ⟨rfl, rfl⟩, by simp⟩

/-- Claim C8 witness: supplying a new name (and no email) to a record with
no stored name changes only the name and reports `true`. -/
theorem update_only_supplied_differing_fields_witness :
    List.Forall₂ (recordFrame "p" (some "A") none)
      [⟨"p", none, none, none⟩]
      (update_personal_info [⟨"p", none, none, none⟩] "p" (some "A") none).2 ∧
    ([(⟨"p", none, none, none⟩ : PersonalInfo)].find?
        (fun r => r.phone_number == "p") = none →
      (update_personal_info [⟨"p", none, none, none⟩] "p"
        (some "A") none).1 = false ∧
      (update_personal_info [⟨"p", none, none, none⟩] "p"
        (some "A") none).2 = [⟨"p", none, none, none⟩]) ∧
    ((update_personal_info [⟨"p", none, none, none⟩] "p"
        (some "A") none).1 = true ↔
      (update_personal_info [⟨"p", none, none, none⟩] "p"
        (some "A") none).2 ≠ [⟨"p", none, none, none⟩]) :=
  update_only_supplied_differing_fields [⟨"p", none, none, none⟩] "p"
    (some "A") none

/-- Claim C9: an inbound webhook request lacking a truthy `CallSid` or a
parsed caller number returns the fixed minimal error markup and leaves the
storage state — identity records and conversations — unchanged. -/
theorem missing_callsid_fixed_error_no_write (data : ParsedRequest)
    (eff : Effects) (st : Storage)
    (h : truthy data.call_sid = false ∨ truthy data.from_number = false) :
    handle_incoming (Except.ok data) eff st = (errorSayResponse, st) := by
  have hcond : (truthy data.call_sid && truthy data.from_number) = false := by
    rcases h with h | h <;> simp [h]
  simp [handle_incoming, incomingBody, hcond]

/-- Claim C9 witness: a request with a caller number but no `CallSid`. -/
theorem missing_callsid_fixed_error_no_write_witness :
    (truthy (⟨none, some "+15551234567", none, none⟩ :
        ParsedRequest).call_sid = false ∨
     truthy (⟨none, some "+15551234567", none, none⟩ :
        ParsedRequest).from_number = false) ∧
    handle_incoming (Except.ok ⟨none, some "+15551234567", none, none⟩)
        ⟨false, fun _ _ => Except.ok "/temp_audio_path/g.mp3",
          "http://h/", "https://h"⟩ ⟨[], []⟩ =
      (errorSayResponse, ⟨[], []⟩) :=
  ⟨Or.inl rfl,
   missing_callsid_fixed_error_no_write
     ⟨none, some "+15551234567", none, none⟩
     ⟨false, fun _ _ => Except.ok "/temp_audio_path/g.mp3",
       "http://h/", "https://h"⟩ ⟨[], []⟩ (Or.inl rfl)⟩

theorem create_greeting_twiml_ok (g : Option String)
    (cs pn bu : String) :
    wellFormedMarkup (create_greeting_and_connect_stream_twiml g cs pn bu) ∧
    hasSpokenVerb (create_greeting_and_connect_stream_twiml g cs pn bu) := by
  unfold create_greeting_and_connect_stream_twiml
  by_cases ht : truthy g = true
  · rw [if_pos ht]
    exact ⟨wellFormed_renderResponse _, spoken_renderResponse_play _ _⟩
  · rw [if_neg ht]
    exact ⟨wellFormed_renderResponse _, spoken_renderResponse_say _ _⟩

theorem create_outgoing_twiml_ok (cs pn bu : String) :
    wellFormedMarkup (create_outgoing_connect_stream_twiml cs pn bu) ∧
    hasSpokenVerb (create_outgoing_connect_stream_twiml cs pn bu) :=
  ⟨wellFormed_renderResponse _, spoken_renderResponse_say _ _⟩

theorem incomingBody_resp (parsed : Except String ParsedRequest)
    (eff : Effects) (st : Storage) :
    (incomingBody parsed eff st).1 = none ∨
    (incomingBody parsed eff st).1 = some errorSayResponse ∨
    ∃ g cs pn bu, (incomingBody parsed eff st).1 =
      some (create_greeting_and_connect_stream_twiml g cs pn bu) := by
  unfold incomingBody
  split
  · exact Or.inl rfl
  · split
    · split
      · exact Or.inl rfl
      · split
        · exact Or.inl rfl
        · exact Or.inr (Or.inr ⟨_, _, _, _, rfl⟩)
    · exact Or.inr (Or.inl rfl)

theorem agentIncomingBody_resp (parsed : Except String ParsedRequest)
    (eff : Effects) (st : Storage) :
    (agentIncomingBody parsed eff st).1 = none ∨
    (agentIncomingBody parsed eff st).1 = some errorSayResponse ∨
    ∃ g cs pn bu, (agentIncomingBody parsed eff st).1 =
      some (create_greeting_and_connect_stream_twiml g cs pn bu) := by
  unfold agentIncomingBody
  split
  · exact Or.inl rfl
  · split
    · split
      · exact Or.inl rfl
      · split
        · exact Or.inl rfl
        · exact Or.inr (Or.inr ⟨_, _, _, _, rfl⟩)
    · exact Or.inr (Or.inl rfl)

theorem outgoingBody_resp (parsed : Except String ParsedRequest)
    (eff : Effects) (st : Storage) :
    (outgoingBody parsed eff st).1 = none ∨
    (outgoingBody parsed eff st).1 = some hangupResponse ∨
    ∃ cs pn bu, (outgoingBody parsed eff st).1 =
      some (create_outgoing_connect_stream_twiml cs pn bu) := by
  unfold outgoingBody
  split
  · exact Or.inl rfl
  · split
    · exact Or.inr (Or.inr ⟨_, _, _, rfl⟩)
    · exact Or.inr (Or.inl rfl)

theorem incoming_markup_ok (parsed : Except String ParsedRequest)
    (eff : Effects) (st : Storage) :
    wellFormedMarkup (handle_incoming parsed eff st).1 ∧
    hasSpokenVerb (handle_incoming parsed eff st).1 := by
  have h := incomingBody_resp parsed eff st
  unfold handle_incoming
  rcases hsplit : incomingBody parsed eff st with ⟨o1, st2⟩
  rw [hsplit] at h
  cases o1 with
  | none => exact ⟨wellFormed_internalError, spoken_internalError⟩
  | some resp =>
    rcases h with h | h | ⟨g, cs, pn, bu, h⟩
    · exact absurd h (by simp)
    · rw [Option.some_inj] at h
      subst h
      exact ⟨wellFormed_errorSay, spoken_errorSay⟩
    · rw [Option.some_inj] at h
      subst h
      exact create_greeting_twiml_ok g cs pn bu

theorem agent_incoming_markup_ok (parsed : Except String ParsedRequest)
    (eff : Effects) (st : Storage) :
    wellFormedMarkup (handle_agent_incoming parsed eff st).1 ∧
    hasSpokenVerb (handle_agent_incoming parsed eff st).1 := by
  have h := agentIncomingBody_resp parsed eff st
  unfold handle_agent_incoming
  rcases hsplit : agentIncomingBody parsed eff st with ⟨o1, st2⟩
  rw [hsplit] at h
  cases o1 with
  | none => exact ⟨wellFormed_internalError, spoken_internalError⟩
  | some resp =>
    rcases h with h | h | ⟨g, cs, pn, bu, h⟩
    · exact absurd h (by simp)
    · rw [Option.some_inj] at h
      subst h
      exact ⟨wellFormed_errorSay, spoken_errorSay⟩
    · rw [Option.some_inj] at h
      subst h
      exact create_greeting_twiml_ok g cs pn bu

theorem outgoing_markup_ok (parsed : Except String ParsedRequest)
    (eff : Effects) (st : Storage) :
    wellFormedMarkup (handle_outgoing_handler parsed eff st).1 ∧
    ((handle_outgoing_handler parsed eff st).1 = hangupResponse ∨
      hasSpokenVerb (handle_outgoing_handler parsed eff st).1) := by
  have h := outgoingBody_resp parsed eff st
  unfold handle_outgoing_handler
  rcases hsplit : outgoingBody parsed eff st with ⟨o1, st2⟩
  rw [hsplit] at h
  cases o1 with
  | none => exact ⟨wellFormed_hangup, Or.inl rfl⟩
  | some resp =>
    rcases h with h | h | ⟨cs, pn, bu, h⟩
    · exact absurd h (by simp)
    · rw [Option.some_inj] at h
      subst h
      exact ⟨wellFormed_hangup, Or.inl rfl⟩
    · rw [Option.some_inj] at h
      subst h
      exact ⟨(create_outgoing_twiml_ok cs pn bu).1,
        Or.inr (create_outgoing_twiml_ok cs pn bu).2⟩

/-- Claim C2 counterexample: an outbound-connected webhook request lacking
the dialed number is answered with the bare hangup markup, which contains
no `Say` or `Play` instruction — the caller's call is dropped without a
generic spoken message, contradicting the claim that every webhook path
makes the caller hear a generic message. -/
theorem outgoing_failure_drops_call :
    (handle_outgoing_handler
        (Except.ok ⟨some "CA123", some "+15551234567", none, none⟩)
        ⟨false, fun _ _ => Except.ok "/temp_audio_path/g.mp3",
          "http://h/", "https://h"⟩ ⟨[], []⟩).1 = hangupResponse ∧
    ¬ hasSpokenVerb hangupResponse := by
  constructor
  · rfl
  · unfold hasSpokenVerb
    decide

/-- Claim C2 (amended): every webhook handler — inbound general, inbound
agent, outbound-connected — returns well-formed call-control markup on
every path, including uncaught-failure paths; the two inbound handlers
additionally always include a spoken (`Say`/`Play`) instruction, while
the outbound-connected handler returns either a spoken connect response
or the fixed hangup markup (on missing data or failure, dropping the call
without a spoken message). -/
theorem webhook_markup_always_valid (parsed : Except String ParsedRequest)
    (eff : Effects) (st : Storage) :
    (wellFormedMarkup (handle_incoming parsed eff st).1 ∧
     hasSpokenVerb (handle_incoming parsed eff st).1) ∧
    (wellFormedMarkup (handle_agent_incoming parsed eff st).1 ∧
     hasSpokenVerb (handle_agent_incoming parsed eff st).1) ∧
    (wellFormedMarkup (handle_outgoing_handler parsed eff st).1 ∧
     ((handle_outgoing_handler parsed eff st).1 = hangupResponse ∨
       hasSpokenVerb (handle_outgoing_handler parsed eff st).1)) :=
  ⟨incoming_markup_ok parsed eff st, agent_incoming_markup_ok parsed eff st,
   outgoing_markup_ok parsed eff st⟩

end SalesAgent
